import Mathlib

/-!
Shallow embedding of src/main.c (raylib bouncing-balls demo).

The C program stores positions and velocities in single-precision floats.
All quantities the specification reasons about (integer pixel coordinates,
speeds drawn as hundredths) are modelled here as exact rationals, so the
float fields become values of type Rat and float arithmetic becomes exact
rational arithmetic.  Screen dimensions are machine ints, modelled as Int.
-/

namespace RaylibWasm

/-- Vector2, the 2D float pair from raylib used for position and velocity. -/
structure Vector2 where
  x : ℚ
  y : ℚ
deriving DecidableEq

/-- Color, the RGBA byte quadruple from raylib; its numeric content is opaque
to the program logic, only equality matters. -/
structure Color where
  r : ℕ
  g : ℕ
  b : ℕ
  a : ℕ
deriving DecidableEq

/-- Ball structure from src/main.c lines 15-21. -/
structure Ball where
  position : Vector2
  velocity : Vector2
  radius : ℚ
  color : Color
deriving DecidableEq

/-- SCREEN_WIDTH configuration constant (src/main.c line 5). -/
def SCREEN_WIDTH : ℤ := 800

/-- SCREEN_HEIGHT configuration constant (src/main.c line 6). -/
def SCREEN_HEIGHT : ℤ := 450

/-- NUM_BALLS configuration constant (src/main.c line 8). -/
def NUM_BALLS : ℕ := 2500

/-- BALL_RADIUS configuration constant (src/main.c line 9). -/
def BALL_RADIUS : ℚ := 20

/-- BALL_MIN_SPEED configuration constant (src/main.c line 10). -/
def BALL_MIN_SPEED : ℚ := 2

/-- BALL_MAX_SPEED configuration constant (src/main.c line 11). -/
def BALL_MAX_SPEED : ℚ := 8

/-- UI_TEXT_SIZE configuration constant (src/main.c line 12). -/
def UI_TEXT_SIZE : ℕ := 20

/-- The horizontal wall-collision test of src/main.c line 31, taken at the
already-updated x coordinate px. -/
def hitX (px radius : ℚ) (screenWidth : ℤ) : Prop :=
  px + radius ≥ (screenWidth : ℚ) ∨ px - radius ≤ 0

instance (px radius : ℚ) (screenWidth : ℤ) : Decidable (hitX px radius screenWidth) :=
  inferInstanceAs (Decidable (_ ∨ _))

/-- The vertical wall-collision test of src/main.c line 34, taken at the
already-updated y coordinate py. -/
def hitY (py radius : ℚ) (screenHeight : ℤ) : Prop :=
  py + radius ≥ (screenHeight : ℚ) ∨ py - radius ≤ 0

instance (py radius : ℚ) (screenHeight : ℤ) : Decidable (hitY py radius screenHeight) :=
  inferInstanceAs (Decidable (_ ∨ _))

/-- UpdateBall from src/main.c lines 24-43: Euler position update, horizontal
reflection without clamping, vertical reflection with clamping.  The C code
mutates the ball through a pointer; here the updated ball is returned. -/
def UpdateBall (ball : Ball) (screenWidth screenHeight : ℤ) : Ball :=
  let px := ball.position.x + ball.velocity.x
  let py := ball.position.y + ball.velocity.y
  let vx := if hitX px ball.radius screenWidth then -ball.velocity.x else ball.velocity.x
  let vy := if hitY py ball.radius screenHeight then -ball.velocity.y else ball.velocity.y
  let py2 :=
    if hitY py ball.radius screenHeight then
      if py + ball.radius ≥ (screenHeight : ℚ) then (screenHeight : ℚ) - ball.radius
      else if py - ball.radius ≤ 0 then ball.radius
      else py
    else py
  { position := ⟨px, py2⟩, velocity := ⟨vx, vy⟩,
    radius := ball.radius, color := ball.color }

/-- RED from raylib. -/
def RED : Color := ⟨230, 41, 55, 255⟩

/-- DARKGRAY from raylib. -/
def DARKGRAY : Color := ⟨80, 80, 80, 255⟩

/-- RAYWHITE from raylib. -/
def RAYWHITE : Color := ⟨245, 245, 245, 255⟩

/-- The palette ballColors of src/main.c lines 58-59, with the RGBA values of
the named raylib colors. -/
def ballColors : List Color :=
  [RED, ⟨0, 121, 241, 255⟩, ⟨0, 228, 48, 255⟩, ⟨253, 249, 0, 255⟩,
   ⟨200, 122, 255, 255⟩, ⟨255, 161, 0, 255⟩, ⟨255, 109, 194, 255⟩,
   ⟨255, 203, 0, 255⟩, ⟨0, 158, 47, 255⟩, ⟨190, 33, 55, 255⟩,
   ⟨0, 117, 44, 255⟩, ⟨102, 191, 255, 255⟩, ⟨0, 82, 172, 255⟩,
   ⟨255, 0, 255, 255⟩, ⟨76, 63, 47, 255⟩, ⟨130, 130, 130, 255⟩, DARKGRAY]

/-- The loop body of src/main.c lines 62-79 that fills in one ball, given the
values drawn by the five GetRandomValue calls: px from (20, 780), py from
(20, 430), sx and sy from (200, 800), the sign draws fx and fy from (0, 1)
interpreted with C truthiness, and the palette index ci from (0, 16). -/
def makeBall (px py sx sy fx fy ci : ℤ) : Ball :=
  let speedX0 : ℚ := (sx : ℚ) / 100
  let speedY0 : ℚ := (sy : ℚ) / 100
  let speedX : ℚ := if fx ≠ 0 then -speedX0 else speedX0
  let speedY : ℚ := if fy ≠ 0 then -speedY0 else speedY0
  { position := ⟨(px : ℚ), (py : ℚ)⟩
    velocity := ⟨speedX, speedY⟩
    radius := BALL_RADIUS
    color := ballColors.getD ci.toNat ⟨0, 0, 0, 0⟩ }

/-- One draw call issued to the graphics collaborator. -/
inductive DrawCmd where
  | clear (c : Color)
  | circle (center : Vector2) (radius : ℚ) (c : Color)
  | text (s : String) (x y size : ℕ) (c : Color)
deriving DecidableEq

/-- DrawBall from src/main.c lines 46-49. -/
def DrawBall (ball : Ball) : DrawCmd :=
  DrawCmd.circle ball.position ball.radius ball.color

/-- The update loop of src/main.c lines 84-87: every ball is advanced by one
physics step. -/
def updateAll (balls : List Ball) : List Ball :=
  balls.map (fun b => UpdateBall b SCREEN_WIDTH SCREEN_HEIGHT)

/-- The draw section of src/main.c lines 90-99: clear the background, draw
every ball, draw the status line. -/
def renderFrame (balls : List Ball) : List DrawCmd :=
  DrawCmd.clear RAYWHITE ::
    (balls.map DrawBall ++
      [DrawCmd.text "C Version - Procedural Programming" 10 10 UI_TEXT_SIZE DARKGRAY])

/-- The while loop of src/main.c lines 81-100 together with the final return 0
of line 103.  The WindowShouldClose query on iteration i is the external
oracle shouldClose i; fuel bounds the number of iterations modelled, i is
the iteration counter, log accumulates the draw calls issued so far.  When
the close query reports true the loop exits at once with state, log and the
exit code 0; none indicates the fuel ran out before a close request. -/
def mainLoop (shouldClose : ℕ → Bool) :
    ℕ → ℕ → List Ball → List DrawCmd → Option (List Ball × List DrawCmd × ℤ)
  | 0, _, _, _ => none
  | fuel + 1, i, balls, log =>
    if shouldClose i then some (balls, log, 0)
    else
      mainLoop shouldClose fuel (i + 1) (updateAll balls)
        (log ++ renderFrame (updateAll balls))

/-- C1: the claim that after UpdateBall both position.x lies in
[radius, width - radius] and position.y lies in [radius, height - radius]
fails on the horizontal axis, because the code never clamps position.x.
This exhibits a ball in a fully valid state (radius 20, position inside the
800x450 viewport) whose position.x leaves the claimed interval after one
update. -/
theorem C1_counterexample :
    ((20 : ℚ) ≤ 20 ∧ (20 : ℚ) ≤ 780 ∧ (20 : ℚ) ≤ 100 ∧ (100 : ℚ) ≤ 430) ∧
    ¬ (20 ≤ (UpdateBall ⟨⟨20, 100⟩, ⟨-3, 0⟩, 20, RED⟩ 800 450).position.x ∧
       (UpdateBall ⟨⟨20, 100⟩, ⟨-3, 0⟩, 20, RED⟩ 800 450).position.x ≤ 780) := by
  simp only [UpdateBall, hitX, hitY]
  norm_num

/-- C1 (amended): for every ball with radius 20 in the 800x450 viewport, at
the end of every frame position.y lies within [20, 430]; the corresponding
bound on position.x does not hold because the horizontal axis is never
clamped. -/
theorem C1_theorem (p v : Vector2) (c : Color) :
    20 ≤ (UpdateBall ⟨p, v, 20, c⟩ 800 450).position.y ∧
    (UpdateBall ⟨p, v, 20, c⟩ 800 450).position.y ≤ 430 := by
  simp only [UpdateBall, hitY]
  split_ifs with h1 h2 h3
  · constructor <;> norm_num
  · constructor <;> norm_num
  · exfalso
    rcases h1 with hx | hx
    · exact h2 hx
    · exact h3 hx
  · push_neg at h1
    norm_num at h1
    exact ⟨by linarith [h1.2], by linarith [h1.1]⟩

/-- C2: the vertical containment radius <= position.y <= height - radius
after one UpdateBall is claimed for every positive viewport height, but with
height 1 (positive) and radius 20 the clamp lands on 1 - 20 = -19, below the
claimed lower bound. -/
theorem C2_counterexample :
    (0 : ℤ) < 1 ∧
    ¬ (20 ≤ (UpdateBall ⟨⟨100, 0⟩, ⟨0, 0⟩, 20, RED⟩ 800 1).position.y ∧
       (UpdateBall ⟨⟨100, 0⟩, ⟨0, 0⟩, 20, RED⟩ 800 1).position.y ≤ ((1 : ℤ) : ℚ) - 20) := by
  simp only [UpdateBall, hitX, hitY]
  norm_num

/-- C2 (amended): for every ball, after one UpdateBall with a viewport height
of at least twice the radius, radius <= position.y <= height - radius holds
exactly, for any input position.y and velocity.y. -/
theorem C2_theorem (p v : Vector2) (radius : ℚ) (c : Color) (w h : ℤ)
    (hh : 2 * radius ≤ (h : ℚ)) :
    radius ≤ (UpdateBall ⟨p, v, radius, c⟩ w h).position.y ∧
    (UpdateBall ⟨p, v, radius, c⟩ w h).position.y ≤ (h : ℚ) - radius := by
  simp only [UpdateBall, hitY]
  split_ifs with h1 h2 h3
  · constructor <;> linarith
  · constructor <;> linarith
  · exfalso
    rcases h1 with hx | hx
    · exact h2 hx
    · exact h3 hx
  · push_neg at h1
    exact ⟨by linarith [h1.2], by linarith [h1.1]⟩

/-- Witness for C2_theorem at radius 20 within the 800x450 viewport. -/
theorem C2_witness :
    20 ≤ (UpdateBall ⟨⟨0, 0⟩, ⟨0, 0⟩, 20, RED⟩ 800 450).position.y ∧
    (UpdateBall ⟨⟨0, 0⟩, ⟨0, 0⟩, 20, RED⟩ 800 450).position.y ≤ ((450 : ℤ) : ℚ) - 20 :=
  C2_theorem ⟨0, 0⟩ ⟨0, 0⟩ 20 RED 800 450 (by norm_num)

/-- C3: UpdateBall first adds velocity to position; the resulting position.x
is kept unclamped, and velocity.x is negated exactly when the updated x
touches a side wall; concretely, the ball at (5,100) with radius 20 and
velocity (-3,0) in the 800-wide viewport ends the step with velocity.x = 3
and position.x = 2. -/
theorem C3_theorem :
    (∀ (b : Ball) (w h : ℤ),
      (UpdateBall b w h).position.x = b.position.x + b.velocity.x ∧
      (UpdateBall b w h).velocity.x =
        if hitX (b.position.x + b.velocity.x) b.radius w then -b.velocity.x
        else b.velocity.x) ∧
    (UpdateBall ⟨⟨5, 100⟩, ⟨-3, 0⟩, 20, RED⟩ 800 450).velocity.x = 3 ∧
    (UpdateBall ⟨⟨5, 100⟩, ⟨-3, 0⟩, 20, RED⟩ 800 450).position.x = 2 := by
  refine ⟨fun b w h => ⟨rfl, rfl⟩, ?_, ?_⟩ <;>
    (simp only [UpdateBall, hitX, hitY]; norm_num)

/-- C4: whenever the updated y coordinate touches a horizontal wall,
UpdateBall negates velocity.y and clamps position.y to height - radius when
the bottom was hit, and to radius otherwise; concretely, the ball at
(100,435) with radius 20 and velocity (0,4) in the 450-high viewport ends
the step with velocity.y = -4 and position.y = 430. -/
theorem C4_theorem :
    (∀ (b : Ball) (w h : ℤ),
      hitY (b.position.y + b.velocity.y) b.radius h →
      (UpdateBall b w h).velocity.y = -b.velocity.y ∧
      (UpdateBall b w h).position.y =
        (if b.position.y + b.velocity.y + b.radius ≥ (h : ℚ) then (h : ℚ) - b.radius
         else b.radius)) ∧
    (UpdateBall ⟨⟨100, 435⟩, ⟨0, 4⟩, 20, RED⟩ 800 450).velocity.y = -4 ∧
    (UpdateBall ⟨⟨100, 435⟩, ⟨0, 4⟩, 20, RED⟩ 800 450).position.y = 430 := by
  refine ⟨fun b w h hhit => ?_, ?_, ?_⟩
  · have hhit2 : b.position.y + b.velocity.y + b.radius ≥ (h : ℚ) ∨
        b.position.y + b.velocity.y - b.radius ≤ 0 := hhit
    simp only [UpdateBall]
    rw [if_pos hhit, if_pos hhit]
    constructor
    · rfl
    · split_ifs with ha hb
      · rfl
      · rfl
      · exfalso
        rcases hhit2 with hx | hx
        · exact ha hx
        · exact hb hx
  · simp only [UpdateBall, hitX, hitY]; norm_num
  · simp only [UpdateBall, hitX, hitY]; norm_num

/-- Witness for the conditional part of C4_theorem: a ball hitting the top
wall gets velocity.y negated and position.y clamped per the branch rule. -/
theorem C4_witness :
    (UpdateBall ⟨⟨100, 10⟩, ⟨0, -5⟩, 20, RED⟩ 800 450).velocity.y = -(-5) ∧
    (UpdateBall ⟨⟨100, 10⟩, ⟨0, -5⟩, 20, RED⟩ 800 450).position.y =
      (if (10 : ℚ) + -5 + 20 ≥ ((450 : ℤ) : ℚ) then ((450 : ℤ) : ℚ) - 20 else 20) :=
  C4_theorem.1 ⟨⟨100, 10⟩, ⟨0, -5⟩, 20, RED⟩ 800 450
    (Or.inr (show (10 : ℚ) + -5 - 20 ≤ 0 by norm_num))

/-- C5: UpdateBall conserves the velocity magnitude
sqrt(velocity.x^2 + velocity.y^2): each component is at most negated, so its
square, and hence the euclidean norm, is unchanged. -/
theorem C5_theorem (b : Ball) (w h : ℤ) :
    Real.sqrt (((UpdateBall b w h).velocity.x : ℝ) ^ 2 +
               ((UpdateBall b w h).velocity.y : ℝ) ^ 2) =
      Real.sqrt ((b.velocity.x : ℝ) ^ 2 + (b.velocity.y : ℝ) ^ 2) := by
  have hx : ((UpdateBall b w h).velocity.x : ℝ) ^ 2 = (b.velocity.x : ℝ) ^ 2 := by
    simp only [UpdateBall]
    split_ifs <;> push_cast <;> ring
  have hy : ((UpdateBall b w h).velocity.y : ℝ) ^ 2 = (b.velocity.y : ℝ) ^ 2 := by
    simp only [UpdateBall]
    split_ifs <;> push_cast <;> ring
  rw [hx, hy]

/-- C6: the claim that a ball triggering a horizontal reflection never
triggers it again on the very next frame fails: a ball at x = 780 with
velocity.x = 3 (a state the initializer can produce) satisfies the
horizontal collision test on two consecutive updates, so its velocity.x is
negated twice in a row. -/
theorem C6_counterexample :
    hitX ((780 : ℚ) + 3) 20 800 ∧
    (UpdateBall ⟨⟨780, 100⟩, ⟨3, 0⟩, 20, RED⟩ 800 450).velocity.x = -3 ∧
    hitX ((UpdateBall ⟨⟨780, 100⟩, ⟨3, 0⟩, 20, RED⟩ 800 450).position.x +
          (UpdateBall ⟨⟨780, 100⟩, ⟨3, 0⟩, 20, RED⟩ 800 450).velocity.x) 20 800 ∧
    (UpdateBall (UpdateBall ⟨⟨780, 100⟩, ⟨3, 0⟩, 20, RED⟩ 800 450) 800 450).velocity.x = 3 := by
  simp only [UpdateBall, hitX, hitY]
  norm_num

/-- C6 (amended): when a ball starting strictly inside the horizontal band
(radius < position.x < width - radius) triggers a horizontal reflection, the
overshoot past either wall is at most one frame of horizontal velocity, the
next update returns position.x to its pre-reflection value (back toward the
interior), and the horizontal collision test does not fire on that next
update; a ball starting exactly on the band boundary can instead re-trigger
it, as C6_counterexample shows. -/
theorem C6_theorem (p v : Vector2) (r : ℚ) (c : Color) (w h : ℤ)
    (hhit : hitX (p.x + v.x) r w) (hlo : r < p.x) (hhi : p.x < (w : ℚ) - r) :
    (UpdateBall ⟨p, v, r, c⟩ w h).position.x = p.x + v.x ∧
    r - |v.x| ≤ (UpdateBall ⟨p, v, r, c⟩ w h).position.x ∧
    (UpdateBall ⟨p, v, r, c⟩ w h).position.x ≤ (w : ℚ) - r + |v.x| ∧
    (UpdateBall (UpdateBall ⟨p, v, r, c⟩ w h) w h).position.x = p.x ∧
    ¬ hitX ((UpdateBall ⟨p, v, r, c⟩ w h).position.x +
            (UpdateBall ⟨p, v, r, c⟩ w h).velocity.x) r w := by
  have hpx : (UpdateBall ⟨p, v, r, c⟩ w h).position.x = p.x + v.x := rfl
  have hvx : (UpdateBall ⟨p, v, r, c⟩ w h).velocity.x = -v.x := by
    simp only [UpdateBall]
    exact if_pos hhit
  refine ⟨hpx, ?_, ?_, ?_, ?_⟩
  · rw [hpx]
    linarith [neg_abs_le v.x]
  · rw [hpx]
    linarith [le_abs_self v.x]
  · have hstep : (UpdateBall (UpdateBall ⟨p, v, r, c⟩ w h) w h).position.x =
        (UpdateBall ⟨p, v, r, c⟩ w h).position.x +
          (UpdateBall ⟨p, v, r, c⟩ w h).velocity.x := rfl
    rw [hstep, hpx, hvx]
    ring
  · rw [hpx, hvx]
    intro hcon
    have hcon2 : p.x + v.x + -v.x + r ≥ (w : ℚ) ∨ p.x + v.x + -v.x - r ≤ 0 := hcon
    rcases hcon2 with hx | hx
    · linarith
    · linarith

/-- Witness for C6_theorem: a ball just inside the left band at x = 21 with
velocity.x = -3 reflects once and is clear of both walls on the next frame. -/
theorem C6_witness :
    (UpdateBall ⟨⟨21, 100⟩, ⟨-3, 0⟩, 20, RED⟩ 800 450).position.x = (21 : ℚ) + -3 ∧
    (20 : ℚ) - |(-3 : ℚ)| ≤ (UpdateBall ⟨⟨21, 100⟩, ⟨-3, 0⟩, 20, RED⟩ 800 450).position.x ∧
    (UpdateBall ⟨⟨21, 100⟩, ⟨-3, 0⟩, 20, RED⟩ 800 450).position.x ≤
      ((800 : ℤ) : ℚ) - 20 + |(-3 : ℚ)| ∧
    (UpdateBall (UpdateBall ⟨⟨21, 100⟩, ⟨-3, 0⟩, 20, RED⟩ 800 450) 800 450).position.x = 21 ∧
    ¬ hitX ((UpdateBall ⟨⟨21, 100⟩, ⟨-3, 0⟩, 20, RED⟩ 800 450).position.x +
            (UpdateBall ⟨⟨21, 100⟩, ⟨-3, 0⟩, 20, RED⟩ 800 450).velocity.x) 20 800 :=
  C6_theorem ⟨21, 100⟩ ⟨-3, 0⟩ 20 RED 800 450
    (Or.inr (show (21 : ℚ) + -3 - 20 ≤ 0 by norm_num)) (by norm_num) (by norm_num)

/-- C7: every ball produced by the initializer loop body, under the
assumption that each GetRandomValue draw lies in its inclusive argument
range, has position.x in [20, 780], position.y in [20, 430], and both
velocity components of magnitude between BALL_MIN_SPEED = 2 and
BALL_MAX_SPEED = 8. -/
theorem C7_theorem (px py sx sy fx fy ci : ℤ)
    (hpx : 20 ≤ px ∧ px ≤ 780) (hpy : 20 ≤ py ∧ py ≤ 430)
    (hsx : 200 ≤ sx ∧ sx ≤ 800) (hsy : 200 ≤ sy ∧ sy ≤ 800)
    (hfx : 0 ≤ fx ∧ fx ≤ 1) (hfy : 0 ≤ fy ∧ fy ≤ 1)
    (hci : 0 ≤ ci ∧ ci ≤ 16) :
    (20 ≤ (makeBall px py sx sy fx fy ci).position.x ∧
      (makeBall px py sx sy fx fy ci).position.x ≤ 780) ∧
    (20 ≤ (makeBall px py sx sy fx fy ci).position.y ∧
      (makeBall px py sx sy fx fy ci).position.y ≤ 430) ∧
    (BALL_MIN_SPEED ≤ |(makeBall px py sx sy fx fy ci).velocity.x| ∧
      |(makeBall px py sx sy fx fy ci).velocity.x| ≤ BALL_MAX_SPEED) ∧
    (BALL_MIN_SPEED ≤ |(makeBall px py sx sy fx fy ci).velocity.y| ∧
      |(makeBall px py sx sy fx fy ci).velocity.y| ≤ BALL_MAX_SPEED) := by
  have hsxq : (2 : ℚ) ≤ (sx : ℚ) / 100 ∧ (sx : ℚ) / 100 ≤ 8 := by
    have h1 : (200 : ℚ) ≤ (sx : ℚ) := by exact_mod_cast hsx.1
    have h2 : (sx : ℚ) ≤ 800 := by exact_mod_cast hsx.2
    exact ⟨by linarith, by linarith⟩
  have hsyq : (2 : ℚ) ≤ (sy : ℚ) / 100 ∧ (sy : ℚ) / 100 ≤ 8 := by
    have h1 : (200 : ℚ) ≤ (sy : ℚ) := by exact_mod_cast hsy.1
    have h2 : (sy : ℚ) ≤ 800 := by exact_mod_cast hsy.2
    exact ⟨by linarith, by linarith⟩
  have habsx : |(makeBall px py sx sy fx fy ci).velocity.x| = (sx : ℚ) / 100 := by
    simp only [makeBall]
    split_ifs
    · rw [abs_neg]
      exact abs_of_nonneg (by linarith [hsxq.1])
    · exact abs_of_nonneg (by linarith [hsxq.1])
  have habsy : |(makeBall px py sx sy fx fy ci).velocity.y| = (sy : ℚ) / 100 := by
    simp only [makeBall]
    split_ifs
    · rw [abs_neg]
      exact abs_of_nonneg (by linarith [hsyq.1])
    · exact abs_of_nonneg (by linarith [hsyq.1])
  refine ⟨⟨?_, ?_⟩, ⟨?_, ?_⟩, ?_, ?_⟩
  · simp only [makeBall]
    exact_mod_cast hpx.1
  · simp only [makeBall]
    exact_mod_cast hpx.2
  · simp only [makeBall]
    exact_mod_cast hpy.1
  · simp only [makeBall]
    exact_mod_cast hpy.2
  · rw [habsx]
    simp only [BALL_MIN_SPEED, BALL_MAX_SPEED]
    exact ⟨hsxq.1, hsxq.2⟩
  · rw [habsy]
    simp only [BALL_MIN_SPEED, BALL_MAX_SPEED]
    exact ⟨hsyq.1, hsyq.2⟩

/-- Witness for C7_theorem at a concrete set of in-range random draws. -/
theorem C7_witness :
    (20 ≤ (makeBall 400 225 300 500 1 0 3).position.x ∧
      (makeBall 400 225 300 500 1 0 3).position.x ≤ 780) ∧
    (20 ≤ (makeBall 400 225 300 500 1 0 3).position.y ∧
      (makeBall 400 225 300 500 1 0 3).position.y ≤ 430) ∧
    (BALL_MIN_SPEED ≤ |(makeBall 400 225 300 500 1 0 3).velocity.x| ∧
      |(makeBall 400 225 300 500 1 0 3).velocity.x| ≤ BALL_MAX_SPEED) ∧
    (BALL_MIN_SPEED ≤ |(makeBall 400 225 300 500 1 0 3).velocity.y| ∧
      |(makeBall 400 225 300 500 1 0 3).velocity.y| ≤ BALL_MAX_SPEED) :=
  C7_theorem 400 225 300 500 1 0 3 (by norm_num) (by norm_num) (by norm_num)
    (by norm_num) (by norm_num) (by norm_num) (by norm_num)

/-- C8: UpdateBall leaves radius and color untouched, so both are constant
per ball across frames. -/
theorem C8_theorem (b : Ball) (w h : ℤ) :
    (UpdateBall b w h).radius = b.radius ∧ (UpdateBall b w h).color = b.color :=
  ⟨rfl, rfl⟩

/-- C9: as soon as the close query reports true, the loop returns at once
with the ball state and the draw log untouched (no further Physics or Render
Step) and exit code 0; and every normal exit of the loop carries exit code
0. -/
theorem C9_theorem :
    (∀ (sc : ℕ → Bool) (fuel i : ℕ) (balls : List Ball) (log : List DrawCmd),
      sc i = true → mainLoop sc (fuel + 1) i balls log = some (balls, log, 0)) ∧
    (∀ (sc : ℕ → Bool) (fuel : ℕ),
      ∀ (i : ℕ) (balls : List Ball) (log : List DrawCmd)
        (out : List Ball × List DrawCmd × ℤ),
        mainLoop sc fuel i balls log = some out → out.2.2 = 0) := by
  constructor
  · intro sc fuel i balls log hclose
    simp [mainLoop, hclose]
  · intro sc fuel
    induction fuel with
    | zero =>
      intro i balls log out hout
      simp [mainLoop] at hout
    | succ n ih =>
      intro i balls log out hout
      by_cases hc : sc i
      · simp [mainLoop, hc] at hout
        rw [← hout]
      · simp [mainLoop, hc] at hout
        exact ih _ _ _ _ hout

/-- Witness for C9_theorem: with a close query that is already true the loop
exits immediately with empty state, empty draw log and exit code 0. -/
theorem C9_witness :
    mainLoop (fun _ => true) 5 0 [] [] = some ([], [], 0) :=
  C9_theorem.1 (fun _ => true) 4 0 [] [] rfl

/-- C10: the claim quantifies only over the velocity bound, so it admits a
ball whose position.y starts outside the viewport; such a ball at y = 440
with velocity.y = -2 is clamped to 430 by one update and satisfies the
vertical collision test again on the very next update. -/
theorem C10_counterexample :
    ((2 : ℚ) ≤ |(-2 : ℚ)| ∧ |(-2 : ℚ)| ≤ 8) ∧
    hitY ((440 : ℚ) + -2) 20 450 ∧
    (UpdateBall ⟨⟨100, 440⟩, ⟨0, -2⟩, 20, RED⟩ 800 450).position.y = 430 ∧
    hitY ((UpdateBall ⟨⟨100, 440⟩, ⟨0, -2⟩, 20, RED⟩ 800 450).position.y +
          (UpdateBall ⟨⟨100, 440⟩, ⟨0, -2⟩, 20, RED⟩ 800 450).velocity.y) 20 450 := by
  simp only [UpdateBall, hitX, hitY]
  norm_num

/-- C10 (amended): for every ball with radius 20 whose velocity.y magnitude
lies in the initializer range [2, 8] and whose position.y starts inside
[20, 430], if an update satisfies the vertical collision test (and hence
clamps position.y to a boundary), the next update does not satisfy it:
velocity.y is never negated on two consecutive frames from an in-band
state. -/
theorem C10_theorem (p v : Vector2) (c : Color)
    (hv : 2 ≤ |v.y| ∧ |v.y| ≤ 8)
    (hy : 20 ≤ p.y ∧ p.y ≤ 430)
    (hclamp : hitY (p.y + v.y) 20 450) :
    ¬ hitY ((UpdateBall ⟨p, v, 20, c⟩ 800 450).position.y +
            (UpdateBall ⟨p, v, 20, c⟩ 800 450).velocity.y) 20 450 := by
  have hclamp2 : p.y + v.y + 20 ≥ ((450 : ℤ) : ℚ) ∨ p.y + v.y - 20 ≤ 0 := hclamp
  have hvy : (UpdateBall ⟨p, v, 20, c⟩ 800 450).velocity.y = -v.y := by
    simp only [UpdateBall]
    exact if_pos hclamp
  obtain ⟨hv1, hv2⟩ := hv
  intro hcon
  have hcon2 : (UpdateBall ⟨p, v, 20, c⟩ 800 450).position.y +
      (UpdateBall ⟨p, v, 20, c⟩ 800 450).velocity.y + 20 ≥ ((450 : ℤ) : ℚ) ∨
      (UpdateBall ⟨p, v, 20, c⟩ 800 450).position.y +
      (UpdateBall ⟨p, v, 20, c⟩ 800 450).velocity.y - 20 ≤ 0 := hcon
  rw [hvy] at hcon2
  rcases abs_cases v.y with ⟨ha, hb⟩ | ⟨ha, hb⟩
  · rw [ha] at hv1 hv2
    have hbr : p.y + v.y + 20 ≥ ((450 : ℤ) : ℚ) := by
      rcases hclamp2 with hx | hx
      · exact hx
      · exfalso
        linarith
    have hy1 : (UpdateBall ⟨p, v, 20, c⟩ 800 450).position.y = ((450 : ℤ) : ℚ) - 20 := by
      simp only [UpdateBall]
      rw [if_pos hclamp, if_pos hbr]
    rw [hy1] at hcon2
    rcases hcon2 with hx | hx
    · push_cast at hx
      linarith
    · push_cast at hx
      linarith
  · rw [ha] at hv1 hv2
    have hnbr : ¬ (p.y + v.y + 20 ≥ ((450 : ℤ) : ℚ)) := by
      push_cast
      linarith
    have hbr : p.y + v.y - 20 ≤ 0 := by
      rcases hclamp2 with hx | hx
      · exact absurd hx hnbr
      · exact hx
    have hy1 : (UpdateBall ⟨p, v, 20, c⟩ 800 450).position.y = 20 := by
      simp only [UpdateBall]
      rw [if_pos hclamp, if_neg hnbr, if_pos hbr]
    rw [hy1] at hcon2
    rcases hcon2 with hx | hx
    · push_cast at hx
      linarith
    · linarith

/-- Witness for C10_theorem: an in-band ball at y = 428 moving down at 4 is
clamped by one update and is clear of both horizontal walls on the next. -/
theorem C10_witness :
    ¬ hitY ((UpdateBall ⟨⟨100, 428⟩, ⟨0, 4⟩, 20, RED⟩ 800 450).position.y +
            (UpdateBall ⟨⟨100, 428⟩, ⟨0, 4⟩, 20, RED⟩ 800 450).velocity.y) 20 450 :=
  C10_theorem ⟨100, 428⟩ ⟨0, 4⟩ RED (by norm_num) (by norm_num)
    (Or.inl (show (428 : ℚ) + 4 + 20 ≥ ((450 : ℤ) : ℚ) by norm_num))

end RaylibWasm
